import Mathlib

/-!
Shallow embedding of the try_more crate (src/lib.rs): the BoolFlow extension
trait that converts a Bool into a ControlFlow value, with eager and lazy
payload variants, together with proofs of the specified properties.
-/

set_option autoImplicit false

universe u v

/-- Rust standard library type core::ops::ControlFlow with break type B and
continue type C: either Continue carrying a C, or Break carrying a B. In the
crate C is always the unit type (the Rust default). -/
inductive ControlFlow (B : Type u) (C : Type v) where
  | Continue (c : C)
  | Break (b : B)
deriving DecidableEq, Repr

/-- Variant classifier: true exactly on the Break variant (mirrors the Rust
method ControlFlow::is_break). -/
def ControlFlow.is_break {B : Type u} {C : Type v} : ControlFlow B C → Bool
  | ControlFlow.Continue _ => false
  | ControlFlow.Break _ => true

namespace BoolFlow

/-- BoolFlow::break for bool (src/lib.rs lines 81 to 86): Break(()) when the
receiver is true, Continue(()) otherwise. Named break_ because break is a
reserved word in Lean. -/
def break_ (self : Bool) : ControlFlow Unit Unit :=
  match self with
  | true => ControlFlow.Break ()
  | false => ControlFlow.Continue ()

/-- BoolFlow::break_with for bool (src/lib.rs lines 88 to 93): Break(value)
when the receiver is true, Continue(()) otherwise. -/
def break_with {T : Type u} (self : Bool) (value : T) : ControlFlow T Unit :=
  match self with
  | true => ControlFlow.Break value
  | false => ControlFlow.Continue ()

/-- BoolFlow::break_lazy for bool (src/lib.rs lines 95 to 100): Break(f())
when the receiver is true, Continue(()) otherwise; f is called only in the
true branch. -/
def break_lazy {T : Type u} (self : Bool) (f : Unit → T) : ControlFlow T Unit :=
  match self with
  | true => ControlFlow.Break (f ())
  | false => ControlFlow.Continue ()

/-- BoolFlow::continue for bool (src/lib.rs lines 102 to 107): Continue(())
when the receiver is true, Break(()) otherwise. Named continue_ because
continue is a reserved word in Lean. -/
def continue_ (self : Bool) : ControlFlow Unit Unit :=
  match self with
  | true => ControlFlow.Continue ()
  | false => ControlFlow.Break ()

/-- BoolFlow::continue_or for bool (src/lib.rs lines 109 to 114):
Continue(()) when the receiver is true, Break(value) otherwise. -/
def continue_or {T : Type u} (self : Bool) (value : T) : ControlFlow T Unit :=
  match self with
  | true => ControlFlow.Continue ()
  | false => ControlFlow.Break value

/-- BoolFlow::continue_or_else for bool (src/lib.rs lines 116 to 121):
Continue(()) when the receiver is true, Break(f()) otherwise; f is called
only in the false branch. -/
def continue_or_else {T : Type u} (self : Bool) (f : Unit → T) : ControlFlow T Unit :=
  match self with
  | true => ControlFlow.Continue ()
  | false => ControlFlow.Break (f ())

end BoolFlow

/-- A computation instrumented with an invocation counter: it takes the
current count and returns a value together with the updated count. Used to
make producer invocations observable for the laziness claims. -/
def CounterM (T : Type u) : Type u := Nat → T × Nat

/-- Instruments a pure producer so that each invocation increments the
counter by one and yields the produced value. -/
def instrument {T : Type u} (g : Unit → T) : CounterM T :=
  fun n => (g (), n + 1)

/-- BoolFlow::break_lazy with the producer as a counter-instrumented
computation: the same match as in src/lib.rs lines 95 to 100, but the
producer threads the invocation counter, so it runs (and counts) exactly in
the true branch. -/
def break_lazy_traced {T : Type u} (self : Bool) (f : CounterM T) :
    CounterM (ControlFlow T Unit) :=
  fun n =>
    match self with
    | true =>
        let r := f n
        (ControlFlow.Break r.1, r.2)
    | false => (ControlFlow.Continue (), n)

/-- BoolFlow::continue_or_else with the producer as a counter-instrumented
computation: the same match as in src/lib.rs lines 116 to 121, but the
producer threads the invocation counter, so it runs (and counts) exactly in
the false branch. -/
def continue_or_else_traced {T : Type u} (self : Bool) (f : CounterM T) :
    CounterM (ControlFlow T Unit) :=
  fun n =>
    match self with
    | true => (ControlFlow.Continue (), n)
    | false =>
        let r := f n
        (ControlFlow.Break r.1, r.2)

/-- C1: for every boolean b, break(b) returns Break(()) when b is true and
Continue(()) when b is false. -/
theorem break_correct (b : Bool) :
    BoolFlow.break_ b =
      (if b then ControlFlow.Break () else ControlFlow.Continue ()) := by
  cases b <;> rfl

/-- C2: for every boolean b, continue(b) returns Continue(()) when b is true
and Break(()) when b is false. -/
theorem continue_correct (b : Bool) :
    BoolFlow.continue_ b =
      (if b then ControlFlow.Continue () else ControlFlow.Break ()) := by
  cases b <;> rfl

/-- C3: for every boolean b and payload v of any type, break_with(b, v) is
Break(v) when b is true and Continue(()) otherwise, and continue_or(b, v) is
Continue(()) when b is true and Break(v) otherwise. -/
theorem break_with_continue_or_correct {T : Type u} (b : Bool) (v : T) :
    BoolFlow.break_with b v =
        (if b then ControlFlow.Break v else ControlFlow.Continue ()) ∧
      BoolFlow.continue_or b v =
        (if b then ControlFlow.Continue () else ControlFlow.Break v) := by
  cases b <;> exact ⟨rfl, rfl⟩

/-- C4: for every boolean b, pure producer g and starting count n, running
break_lazy with the counter-instrumented producer yields Break(g()) with the
counter incremented exactly once when b is true, and Continue(()) with the
counter untouched when b is false. -/
theorem break_lazy_correct {T : Type u} (b : Bool) (g : Unit → T) (n : Nat) :
    break_lazy_traced b (instrument g) n =
      (if b then ControlFlow.Break (g ()) else ControlFlow.Continue (),
        n + (if b then 1 else 0)) := by
  cases b <;> simp [break_lazy_traced, instrument]

/-- C5: for every boolean b, pure producer g and starting count n, running
continue_or_else with the counter-instrumented producer yields Continue(())
with the counter untouched when b is true, and Break(g()) with the counter
incremented exactly once when b is false. -/
theorem continue_or_else_correct {T : Type u} (b : Bool) (g : Unit → T) (n : Nat) :
    continue_or_else_traced b (instrument g) n =
      (if b then ControlFlow.Continue () else ControlFlow.Break (g ()),
        n + (if b then 0 else 1)) := by
  cases b <;> simp [continue_or_else_traced, instrument]

/-- C6: break and continue are semantic opposites: continue(b) equals
break(not b), continue_or(b, v) equals break_with(not b, v), and
continue_or_else(b, f) equals break_lazy(not b, f). -/
theorem continue_is_break_of_not {T : Type u} (b : Bool) (v : T) (f : Unit → T) :
    BoolFlow.continue_ b = BoolFlow.break_ (!b) ∧
      BoolFlow.continue_or b v = BoolFlow.break_with (!b) v ∧
      BoolFlow.continue_or_else b f = BoolFlow.break_lazy (!b) f := by
  cases b <;> exact ⟨rfl, rfl, rfl⟩

/-- C7: payload noninterference: the variant of each payload-carrying
operation depends only on the boolean and the operation, never on the
payload or producer supplied. -/
theorem variant_ignores_payload {T : Type u} (b : Bool) (v₁ v₂ : T)
    (f₁ f₂ : Unit → T) :
    (BoolFlow.break_with b v₁).is_break = (BoolFlow.break_with b v₂).is_break ∧
      (BoolFlow.continue_or b v₁).is_break = (BoolFlow.continue_or b v₂).is_break ∧
      (BoolFlow.break_lazy b f₁).is_break = (BoolFlow.break_lazy b f₂).is_break ∧
      (BoolFlow.continue_or_else b f₁).is_break =
        (BoolFlow.continue_or_else b f₂).is_break := by
  cases b <;> exact ⟨rfl, rfl, rfl, rfl⟩

/-- C8: totality and determinism: each of the six operations always returns
a ControlFlow value (one of the two variants), and equal inputs yield equal
outputs. -/
theorem flow_total_deterministic {T : Type u} (b b' : Bool) (v : T)
    (f : Unit → T) (hb : b = b') :
    (BoolFlow.break_ b = ControlFlow.Break () ∨
        BoolFlow.break_ b = ControlFlow.Continue ()) ∧
      ((∃ x, BoolFlow.break_with b v = ControlFlow.Break x) ∨
        BoolFlow.break_with b v = ControlFlow.Continue ()) ∧
      ((∃ x, BoolFlow.break_lazy b f = ControlFlow.Break x) ∨
        BoolFlow.break_lazy b f = ControlFlow.Continue ()) ∧
      (BoolFlow.continue_ b = ControlFlow.Break () ∨
        BoolFlow.continue_ b = ControlFlow.Continue ()) ∧
      ((∃ x, BoolFlow.continue_or b v = ControlFlow.Break x) ∨
        BoolFlow.continue_or b v = ControlFlow.Continue ()) ∧
      ((∃ x, BoolFlow.continue_or_else b f = ControlFlow.Break x) ∨
        BoolFlow.continue_or_else b f = ControlFlow.Continue ()) ∧
      BoolFlow.break_ b = BoolFlow.break_ b' ∧
      BoolFlow.break_with b v = BoolFlow.break_with b' v ∧
      BoolFlow.break_lazy b f = BoolFlow.break_lazy b' f ∧
      BoolFlow.continue_ b = BoolFlow.continue_ b' ∧
      BoolFlow.continue_or b v = BoolFlow.continue_or b' v ∧
      BoolFlow.continue_or_else b f = BoolFlow.continue_or_else b' f := by
  subst hb
  cases b
  case false =>
    exact ⟨Or.inr rfl, Or.inr rfl, Or.inr rfl, Or.inl rfl, Or.inl ⟨v, rfl⟩,
      Or.inl ⟨f (), rfl⟩, rfl, rfl, rfl, rfl, rfl, rfl⟩
  case true =>
    exact ⟨Or.inl rfl, Or.inl ⟨v, rfl⟩, Or.inl ⟨f (), rfl⟩, Or.inr rfl,
      Or.inr rfl, Or.inr rfl, rfl, rfl, rfl, rfl, rfl, rfl⟩

/-- Witness for C8 at b = true, b' = true, v = 0, f constantly 0. -/
theorem flow_total_deterministic_witness :
    (true : Bool) = true ∧
      ((BoolFlow.break_ true = ControlFlow.Break () ∨
          BoolFlow.break_ true = ControlFlow.Continue ()) ∧
        ((∃ x, BoolFlow.break_with true (0 : Nat) = ControlFlow.Break x) ∨
          BoolFlow.break_with true (0 : Nat) = ControlFlow.Continue ()) ∧
        ((∃ x, BoolFlow.break_lazy true (fun _ => (0 : Nat)) = ControlFlow.Break x) ∨
          BoolFlow.break_lazy true (fun _ => (0 : Nat)) = ControlFlow.Continue ()) ∧
        (BoolFlow.continue_ true = ControlFlow.Break () ∨
          BoolFlow.continue_ true = ControlFlow.Continue ()) ∧
        ((∃ x, BoolFlow.continue_or true (0 : Nat) = ControlFlow.Break x) ∨
          BoolFlow.continue_or true (0 : Nat) = ControlFlow.Continue ()) ∧
        ((∃ x, BoolFlow.continue_or_else true (fun _ => (0 : Nat)) = ControlFlow.Break x) ∨
          BoolFlow.continue_or_else true (fun _ => (0 : Nat)) = ControlFlow.Continue ()) ∧
        BoolFlow.break_ true = BoolFlow.break_ true ∧
        BoolFlow.break_with true (0 : Nat) = BoolFlow.break_with true (0 : Nat) ∧
        BoolFlow.break_lazy true (fun _ => (0 : Nat)) =
          BoolFlow.break_lazy true (fun _ => (0 : Nat)) ∧
        BoolFlow.continue_ true = BoolFlow.continue_ true ∧
        BoolFlow.continue_or true (0 : Nat) = BoolFlow.continue_or true (0 : Nat) ∧
        BoolFlow.continue_or_else true (fun _ => (0 : Nat)) =
          BoolFlow.continue_or_else true (fun _ => (0 : Nat))) :=
  ⟨rfl, flow_total_deterministic true true (0 : Nat) (fun _ => (0 : Nat)) rfl⟩

/-- C10: eager and lazy forms agree: break_with equals break_lazy with a
constant producer, continue_or equals continue_or_else with a constant
producer, and the unit forms equal the eager forms at the unit payload. -/
theorem eager_lazy_agree {T : Type u} (b : Bool) (v : T) :
    BoolFlow.break_with b v = BoolFlow.break_lazy b (fun _ => v) ∧
      BoolFlow.continue_or b v = BoolFlow.continue_or_else b (fun _ => v) ∧
      BoolFlow.break_ b = BoolFlow.break_with b () ∧
      BoolFlow.continue_ b = BoolFlow.continue_or b () := by
  cases b <;> exact ⟨rfl, rfl, rfl, rfl⟩
